import Mathlib

/-!
Shallow embedding of `all2webp_webm.py`, a directory-walking batch media
converter. External effects (filesystem existence checks, `ffprobe` and
`ffmpeg` subprocess invocations) are modelled as explicit oracle inputs:
a `ProbeResult` is the observable outcome of one `ffprobe` run
(captured stdout on success, or a raised exception), and the transcoder's
outcome is an `Except` carrying the captured stderr on non-zero exit.
Every function returns, besides its value, the list of subprocess
command lines it would execute and the list of console messages it would
print, in order.
-/

set_option autoImplicit false

namespace All2Webp

/-- A filesystem path, split the way `pathlib.Path` exposes it to this
script: the directory part (with trailing separator), the stem, and the
suffix (final extension including the leading dot, possibly empty).
`with_suffix` replaces only the suffix, keeping directory and stem. -/
structure FsPath where
  dir : String
  stem : String
  suffix : String
deriving DecidableEq, Repr

/-- `str(path)`: the textual form passed to subprocesses. -/
def FsPath.toString (p : FsPath) : String :=
  p.dir ++ p.stem ++ p.suffix

/-- `Path.with_suffix(s)`: same directory, same stem, new suffix. -/
def FsPath.withSuffix (p : FsPath) (s : String) : FsPath :=
  { p with suffix := s }

/-- `IMAGE_EXTS` from line 15 of the script. -/
def IMAGE_EXTS : List String :=
  [".jpg", ".jpeg", ".png", ".gif", ".bmp", ".tiff", ".tif", ".webp", ".apng"]

/-- `VIDEO_EXTS` from line 16 of the script. -/
def VIDEO_EXTS : List String :=
  [".mp4", ".avi", ".mov", ".mkv", ".flv", ".wmv", ".m4v", ".mpg", ".mpeg"]

/-- `AUDIO_EXTS` from line 17 of the script. -/
def AUDIO_EXTS : List String :=
  [".mp3", ".flac", ".wav", ".aac", ".ogg", ".m4a", ".wma", ".opus"]

/-- The observable outcome of one `subprocess.run(..., check=True)` probe:
`ok stdout` when the tool exited 0 with the given captured stdout, `err`
when anything was raised (non-zero exit, missing tool, decode error). -/
inductive ProbeResult where
  | ok (stdout : String)
  | err
deriving DecidableEq, Repr

/-- `s.strip()`: drop leading and trailing whitespace. Defined over the
character list so that it evaluates by kernel reduction. -/
def pyStrip (s : String) : String :=
  ⟨((s.data.dropWhile Char.isWhitespace).reverse.dropWhile Char.isWhitespace).reverse⟩

/-- `bool(s)` for a Python string: true iff non-empty. -/
def pyTruthy (s : String) : Bool :=
  !s.data.isEmpty

/-- `s.lower()`: lowercase every character (ASCII case mapping; the
extensions this script compares are ASCII). -/
def pyLower (s : String) : String :=
  ⟨s.data.map Char.toLower⟩

/-- `s.isdigit()` restricted to the ASCII decimal digits. -/
def pyIsDigit (s : String) : Bool :=
  s.data.all Char.isDigit

/-- `int(s)` for a string of decimal digits (the only case the script
reaches it in, guarded by `isdigit()`). -/
def pyInt (s : String) : Nat :=
  s.data.foldl (fun n c => n * 10 + (c.toNat - 48)) 0

/-- The `ffprobe` command line built by `has_audio_stream` (lines 34-40). -/
def hasAudioCmd (p : FsPath) : List String :=
  ["ffprobe", "-v", "error", "-select_streams", "a", "-show_entries",
   "stream=index", "-of", "default=noprint_wrappers=1:nokey=1", p.toString]

/-- The `ffprobe` command line built by `get_audio_bitrate` (lines 54-60). -/
def bitrateCmd (p : FsPath) : List String :=
  ["ffprobe", "-v", "error", "-select_streams", "a:0", "-show_entries",
   "stream=bit_rate", "-of", "default=noprint_wrappers=1:nokey=1", p.toString]

/-- `has_audio_stream` (lines 28-46): true iff the probe succeeded and its
stripped stdout is non-empty; any exception yields false. -/
def has_audio_stream (r : ProbeResult) : Bool :=
  match r with
  | .ok stdout => pyTruthy (pyStrip stdout)
  | .err => false

/-- `get_audio_bitrate` (lines 48-77): strip the probe's stdout; if it is a
non-empty all-digit string, parse it as bits/second; zero means unknown
(`None`); otherwise integer-divide by 1000 and clamp to 8..510, formatting
as `"<kbps>k"`. Any exception or non-digit output yields `None`.
Digits are modelled as the ASCII decimal digits. -/
def get_audio_bitrate (r : ProbeResult) : Option String :=
  match r with
  | .err => none
  | .ok stdout =>
    let bitrate_str := pyStrip stdout
    if pyTruthy bitrate_str && pyIsDigit bitrate_str then
      let bitrate_bps := pyInt bitrate_str
      if bitrate_bps = 0 then
        none
      else
        let kbps := bitrate_bps / 1000
        let kbps := if kbps < 8 then 8 else if kbps > 510 then 510 else kbps
        some (ToString.toString kbps ++ "k")
    else
      none

/-- The three file classes of the script's dispatch in `main`. -/
inductive FileType where
  | image
  | video
  | audio
deriving DecidableEq, Repr

/-- Terminal outcome of `convert_file` for one task. `skippedExists` is the
early return at lines 81-83; `skippedNoAudio` the early return at lines
142-144; `converted`/`failed` reflect the transcoder's exit status. -/
inductive Outcome where
  | converted
  | skippedExists
  | skippedNoAudio
  | failed
deriving DecidableEq, Repr

/-- What one `convert_file` call does: its outcome, the subprocess command
lines it executed (probes and transcoder, in order), and the console lines
it printed, in order. -/
structure ConvResult where
  outcome : Outcome
  cmds : List (List String)
  msgs : List String
deriving DecidableEq, Repr

/-- The external-world inputs one `convert_file` call can observe:
whether the output path exists, the two probe outcomes, and the
transcoder's exit status (with captured stderr on failure). -/
structure Env where
  outputExists : Bool
  audioProbe : ProbeResult
  bitrateProbe : ProbeResult
  ffmpegResult : Except String Unit
deriving Repr

/-- The image-class `ffmpeg` command (lines 86-94). -/
def imageCmd (input output : FsPath) : List String :=
  ["ffmpeg", "-i", input.toString, "-c:v", "libwebp", "-lossless", "1",
   "-compression_level", "6", "-loop", "0", "-an", "-y", output.toString]

/-- The video-class `ffmpeg` command with an audio branch (lines 112-121). -/
def videoCmdWithAudio (input output : FsPath) (audio_bitrate : String) : List String :=
  ["ffmpeg", "-i", input.toString, "-c:v", "libvpx-vp9", "-lossless", "1",
   "-b:v", "0", "-pix_fmt", "yuva420p", "-c:a", "libopus", "-b:a",
   audio_bitrate, "-y", output.toString]

/-- The video-class `ffmpeg` command with audio stripped (lines 124-131). -/
def videoCmdNoAudio (input output : FsPath) : List String :=
  ["ffmpeg", "-i", input.toString, "-c:v", "libvpx-vp9", "-lossless", "1",
   "-b:v", "0", "-pix_fmt", "yuva420p", "-an", "-y", output.toString]

/-- The audio-class `ffmpeg` command (lines 153-158). -/
def audioCmd (input output : FsPath) (audio_bitrate : String) : List String :=
  ["ffmpeg", "-i", input.toString, "-c:a", "libopus", "-b:a",
   audio_bitrate, "-y", output.toString]

/-- The `Конвертация: in -> out` console line. -/
def convMsg (input output : FsPath) : String :=
  "Конвертация: " ++ input.toString ++ " -> " ++ output.toString

/-- The `Ошибка при конвертации in: stderr` console line. -/
def errMsg (input : FsPath) (e : String) : String :=
  "Ошибка при конвертации " ++ input.toString ++ ": " ++ e

/-- Shared tail of every `convert_file` branch that reaches the transcoder
(lines 95-99, 134-138, 159-163): print the conversion notice, run the
command; on `CalledProcessError` print the captured stderr and mark the
file failed, else converted. `pre`/`preMsgs` are the probe commands and
messages issued earlier in the branch. -/
def runTranscode (pre : List (List String)) (preMsgs : List String)
    (cmd : List String) (input output : FsPath)
    (res : Except String Unit) : ConvResult :=
  match res with
  | .ok _ => ⟨.converted, pre ++ [cmd], preMsgs ++ [convMsg input output]⟩
  | .error e =>
      ⟨.failed, pre ++ [cmd], preMsgs ++ [convMsg input output, errMsg input e]⟩

/-- `convert_file` (lines 79-163), with the external world passed in as
`env`. Faithful to the source's control flow: the exists/force skip first,
then the per-class branch; video and audio classes consult
`has_audio_stream` and `get_audio_bitrate` before building the command. -/
def convert_file (input output : FsPath) (file_type : FileType) (force : Bool)
    (default_bitrate : String) (env : Env) : ConvResult :=
  if env.outputExists && !force then
    ⟨.skippedExists, [], ["Пропуск (уже существует): " ++ output.toString]⟩
  else
    match file_type with
    | .image =>
        runTranscode [] [] (imageCmd input output) input output env.ffmpegResult
    | .video =>
        if has_audio_stream env.audioProbe then
          match get_audio_bitrate env.bitrateProbe with
          | none =>
              runTranscode [hasAudioCmd input, bitrateCmd input]
                ["  Не удалось определить битрейт аудио, используется " ++
                  default_bitrate ++ " (задано по умолчанию)"]
                (videoCmdWithAudio input output default_bitrate)
                input output env.ffmpegResult
          | some audio_bitrate =>
              runTranscode [hasAudioCmd input, bitrateCmd input]
                ["  Определён битрейт аудио: " ++ audio_bitrate]
                (videoCmdWithAudio input output audio_bitrate)
                input output env.ffmpegResult
        else
          runTranscode [hasAudioCmd input]
            ["  Аудиопоток отсутствует, видео будет без звука"]
            (videoCmdNoAudio input output) input output env.ffmpegResult
    | .audio =>
        if !has_audio_stream env.audioProbe then
          ⟨.skippedNoAudio, [hasAudioCmd input],
           ["Предупреждение: в файле " ++ input.toString ++
            " нет аудиопотока, пропускаем."]⟩
        else
          match get_audio_bitrate env.bitrateProbe with
          | none =>
              runTranscode [hasAudioCmd input, bitrateCmd input]
                ["  Не удалось определить битрейт, используется " ++
                  default_bitrate ++ " (задано по умолчанию)"]
                (audioCmd input output default_bitrate)
                input output env.ffmpegResult
          | some audio_bitrate =>
              runTranscode [hasAudioCmd input, bitrateCmd input]
                ["  Определён битрейт: " ++ audio_bitrate]
                (audioCmd input output audio_bitrate)
                input output env.ffmpegResult

/-- The extension dispatch of `main` (lines 185-195): lowercase the
suffix, look it up in the three sets, and derive the output path by
replacing the suffix. `none` means the file is ignored. -/
def planFile (input : FsPath) : Option (FsPath × FileType) :=
  if IMAGE_EXTS.contains (pyLower input.suffix) then
    some (input.withSuffix ".webp", FileType.image)
  else if VIDEO_EXTS.contains (pyLower input.suffix) then
    some (input.withSuffix ".webm", FileType.video)
  else if AUDIO_EXTS.contains (pyLower input.suffix) then
    some (input.withSuffix ".webm", FileType.audio)
  else
    none

/-- The run-wide configuration from argument parsing (lines 166-173). -/
structure RunConfig where
  force : Bool
  default_bitrate : String
deriving DecidableEq, Repr

/-- The external-world inputs of a whole run: whether the two tool version
queries succeed, the resolved root and whether it is a directory, and the
walked files each paired with its per-file external observations. -/
structure RunEnv where
  ffmpegOk : Bool
  ffprobeOk : Bool
  root : String
  rootIsDir : Bool
  files : List (FsPath × Env)
deriving Repr

/-- `check_ffmpeg` (lines 19-26): both version queries must exit 0;
otherwise a diagnostic is printed and the run exits 1. Returns whether the
check passed and the printed lines. -/
def check_ffmpeg (ffmpegOk ffprobeOk : Bool) : Bool × List String :=
  if ffmpegOk && ffprobeOk then
    (true, [])
  else
    (false, ["Ошибка: FFmpeg (или ffprobe) не найден. Установите FFmpeg и добавьте его в PATH."])

/-- One iteration of the walk loop in `main`: classify by extension and
convert, or ignore the file (`none`). -/
def processOne (cfg : RunConfig) (f : FsPath × Env) : Option ConvResult :=
  match planFile f.1 with
  | some (out, ft) => some (convert_file f.1 out ft cfg.force cfg.default_bitrate f.2)
  | none => none

/-- `main` (lines 165-195): dependency check, root directory check, then
the sequential walk. Returns the process exit code, the top-level printed
diagnostics, and the per-file results in walk order (`none` for ignored
files). An empty result list on the error paths reflects that no
traversal or conversion happens there. -/
def mainRun (cfg : RunConfig) (renv : RunEnv) :
    Nat × List String × List (Option ConvResult) :=
  match check_ffmpeg renv.ffmpegOk renv.ffprobeOk with
  | (false, msgs) => (1, msgs, [])
  | (true, _) =>
      if !renv.rootIsDir then
        (1, ["Ошибка: " ++ renv.root ++ " не является папкой."], [])
      else
        (0, [], renv.files.map (processOne cfg))

/-- A subprocess invocation is a transcoding invocation iff it invokes the
transcoding engine (first argv element `ffmpeg`); probe invocations start
with `ffprobe`. -/
def isTranscodeInvocation (c : List String) : Bool :=
  c.head? == some "ffmpeg"

/-! ### Helper lemmas -/

lemma clamp_if_eq (k : Nat) :
    (if k < 8 then 8 else if k > 510 then 510 else k) = max 8 (min k 510) := by
  split
  · omega
  · split <;> omega

lemma get_audio_bitrate_ok (s : String) :
    get_audio_bitrate (.ok s) =
      (if pyTruthy (pyStrip s) && pyIsDigit (pyStrip s) then
         if pyInt (pyStrip s) = 0 then none
         else some (ToString.toString
           (if pyInt (pyStrip s) / 1000 < 8 then 8
            else if pyInt (pyStrip s) / 1000 > 510 then 510
            else pyInt (pyStrip s) / 1000) ++ "k")
       else none) := rfl

lemma pyTruthy_iff (s : String) : pyTruthy s = true ↔ s ≠ "" := by
  cases s with
  | mk data =>
      simp [pyTruthy, List.isEmpty_iff, String.ext_iff]

lemma not_skip_of (b f : Bool) (h : b = false ∨ f = true) : (b && !f) = false := by
  cases b <;> cases f <;> simp_all

lemma runTranscode_cmds (pre : List (List String)) (pm : List String)
    (cmd : List String) (i o : FsPath) (res : Except String Unit) :
    (runTranscode pre pm cmd i o res).cmds = pre ++ [cmd] := by
  cases res <;> rfl

lemma runTranscode_error (pre : List (List String)) (pm : List String)
    (cmd : List String) (i o : FsPath) (e : String) :
    runTranscode pre pm cmd i o (.error e) =
      ⟨.failed, pre ++ [cmd], pm ++ [convMsg i o, errMsg i e]⟩ := rfl

lemma runTranscode_outcome_ne_skip (pre : List (List String)) (pm : List String)
    (cmd : List String) (i o : FsPath) (res : Except String Unit) :
    (runTranscode pre pm cmd i o res).outcome ≠ Outcome.skippedExists := by
  cases res <;> simp [runTranscode]

lemma ext_sets_disjoint (e : String) :
    (VIDEO_EXTS.contains e = true → IMAGE_EXTS.contains e = false)
    ∧ (AUDIO_EXTS.contains e = true → IMAGE_EXTS.contains e = false)
    ∧ (AUDIO_EXTS.contains e = true → VIDEO_EXTS.contains e = false) := by
  refine ⟨fun h => ?_, fun h => ?_, fun h => ?_⟩ <;>
  · have hm := List.mem_of_elem_eq_true h
    fin_cases hm <;> decide

/-! ### Claim theorems -/

/-- C1: `get_audio_bitrate` returns `"<k>k"` with `k` the probed
bits/second integer-divided by 1000 and clamped to `[8, 510]` whenever the
probe's stripped output is a non-empty all-digit string denoting a
positive value; it returns `none` when the value is exactly 0, when the
output is empty or not all digits, and when the query raises. -/
theorem bitrate_probe_spec (stdout : String) :
    (pyStrip stdout ≠ "" → pyIsDigit (pyStrip stdout) = true →
       (0 < pyInt (pyStrip stdout) →
          get_audio_bitrate (.ok stdout) =
            some (ToString.toString (max 8 (min (pyInt (pyStrip stdout) / 1000) 510)) ++ "k"))
       ∧ (pyInt (pyStrip stdout) = 0 → get_audio_bitrate (.ok stdout) = none))
    ∧ ((pyStrip stdout = "" ∨ pyIsDigit (pyStrip stdout) = false) →
        get_audio_bitrate (.ok stdout) = none)
    ∧ get_audio_bitrate .err = none := by
  refine ⟨fun hne hdig => ⟨fun hpos => ?_, fun hzero => ?_⟩, fun hbad => ?_, rfl⟩
  · rw [get_audio_bitrate_ok, if_pos (by simp [(pyTruthy_iff _).mpr hne, hdig]),
      if_neg (by omega), clamp_if_eq]
  · rw [get_audio_bitrate_ok, if_pos (by simp [(pyTruthy_iff _).mpr hne, hdig]), if_pos hzero]
  · rcases hbad with h | h
    · rw [get_audio_bitrate_ok, if_neg (by simp [pyTruthy, h])]
    · rw [get_audio_bitrate_ok, if_neg (by simp [h])]

/-- C1 witness: the spec's concrete probes. 5000 bits/s clamps up to
`"8k"`, 600000000 clamps down to `"510k"`, 128000 maps to `"128k"`,
0 and non-digit output map to `none`, and a raised query maps to `none`. -/
theorem bitrate_probe_spec_witness :
    get_audio_bitrate (.ok "5000") = some "8k"
    ∧ get_audio_bitrate (.ok "600000000") = some "510k"
    ∧ get_audio_bitrate (.ok "128000") = some "128k"
    ∧ get_audio_bitrate (.ok "0") = none
    ∧ get_audio_bitrate (.ok "n/a") = none
    ∧ get_audio_bitrate .err = none := by
  refine ⟨?_, ?_, ?_, ?_, ?_, ?_⟩
  · exact (((bitrate_probe_spec "5000").1 (by decide) (by decide)).1 (by decide)).trans (by decide)
  · exact (((bitrate_probe_spec "600000000").1 (by decide) (by decide)).1
      (by decide)).trans (by decide)
  · exact (((bitrate_probe_spec "128000").1 (by decide) (by decide)).1 (by decide)).trans (by decide)
  · exact ((bitrate_probe_spec "0").1 (by decide) (by decide)).2 (by decide)
  · exact (bitrate_probe_spec "n/a").2.1 (Or.inr (by decide))
  · exact (bitrate_probe_spec "x").2.2

/-- C6: `has_audio_stream` is true exactly when the probing query
succeeded with non-empty (stripped) output, and false on any failure; it
is a total function, so it never raises to the caller. -/
theorem has_audio_stream_spec (r : ProbeResult) :
    (has_audio_stream r = true ↔ ∃ stdout, r = .ok stdout ∧ pyStrip stdout ≠ "")
    ∧ has_audio_stream .err = false := by
  refine ⟨?_, rfl⟩
  cases r with
  | ok stdout => simp [has_audio_stream, pyTruthy_iff]
  | err => simp [has_audio_stream]

/-- C6 witness: a probe reporting stream index `0` yields true; a raised
query yields false. -/
theorem has_audio_stream_spec_witness :
    has_audio_stream (.ok "0") = true ∧ has_audio_stream .err = false := by
  exact ⟨(has_audio_stream_spec (.ok "0")).1.mpr ⟨"0", rfl, by decide⟩,
         (has_audio_stream_spec .err).2⟩

/-- C3: for a video task that is not skipped, when the prober reports
audio the constructed transcoder command carries the audio re-encode
branch `-c:a libopus -b:a <bitrate>` with the probed bitrate when the
probe succeeds and the run's default otherwise; when the prober reports no
audio the constructed command is the audio-stripping one (`-an`), which is
never equal to an audio-branch command. -/
theorem video_dispatch_spec (input output : FsPath) (force : Bool) (db : String)
    (env : Env) (hns : env.outputExists = false ∨ force = true) :
    (has_audio_stream env.audioProbe = true →
       (convert_file input output .video force db env).cmds =
         [hasAudioCmd input, bitrateCmd input,
          videoCmdWithAudio input output ((get_audio_bitrate env.bitrateProbe).getD db)]
       ∧ ∃ s t, s ++ ["-c:a", "libopus", "-b:a", (get_audio_bitrate env.bitrateProbe).getD db]
           ++ t = videoCmdWithAudio input output ((get_audio_bitrate env.bitrateProbe).getD db))
    ∧ (has_audio_stream env.audioProbe = false →
       (convert_file input output .video force db env).cmds =
         [hasAudioCmd input, videoCmdNoAudio input output]
       ∧ "-an" ∈ videoCmdNoAudio input output
       ∧ ∀ br, videoCmdNoAudio input output ≠ videoCmdWithAudio input output br) := by
  have hskip := not_skip_of env.outputExists force hns
  constructor
  · intro ha
    constructor
    · cases hbr : get_audio_bitrate env.bitrateProbe with
      | none => simp [convert_file, hskip, ha, hbr, runTranscode_cmds]
      | some b => simp [convert_file, hskip, ha, hbr, runTranscode_cmds]
    · exact ⟨["ffmpeg", "-i", input.toString, "-c:v", "libvpx-vp9", "-lossless", "1",
        "-b:v", "0", "-pix_fmt", "yuva420p"], ["-y", output.toString], rfl⟩
  · intro ha
    refine ⟨?_, ?_, ?_⟩
    · simp [convert_file, hskip, ha, runTranscode_cmds]
    · simp [videoCmdNoAudio]
    · intro br hcontra
      have hlen := congrArg List.length hcontra
      simp [videoCmdNoAudio, videoCmdWithAudio] at hlen

/-- C3 witness: a video whose probes report an audio stream and 96000
bits/s is transcoded with the `96k` audio branch; one whose probes fail is
transcoded with audio stripped. -/
theorem video_dispatch_spec_witness :
    (convert_file ⟨"/v/", "m", ".mp4"⟩ ⟨"/v/", "m", ".webm"⟩ .video false "128k"
       ⟨false, .ok "1", .ok "96000", .ok ()⟩).cmds =
      [hasAudioCmd ⟨"/v/", "m", ".mp4"⟩, bitrateCmd ⟨"/v/", "m", ".mp4"⟩,
       videoCmdWithAudio ⟨"/v/", "m", ".mp4"⟩ ⟨"/v/", "m", ".webm"⟩ "96k"]
    ∧ (convert_file ⟨"/v/", "n", ".mp4"⟩ ⟨"/v/", "n", ".webm"⟩ .video false "128k"
       ⟨false, .err, .err, .ok ()⟩).cmds =
      [hasAudioCmd ⟨"/v/", "n", ".mp4"⟩,
       videoCmdNoAudio ⟨"/v/", "n", ".mp4"⟩ ⟨"/v/", "n", ".webm"⟩] := by
  constructor
  · have h := (video_dispatch_spec ⟨"/v/", "m", ".mp4"⟩ ⟨"/v/", "m", ".webm"⟩ false "128k"
      ⟨false, .ok "1", .ok "96000", .ok ()⟩ (Or.inl rfl)).1 (by decide)
    exact h.1.trans (by decide)
  · exact ((video_dispatch_spec ⟨"/v/", "n", ".mp4"⟩ ⟨"/v/", "n", ".webm"⟩ false "128k"
      ⟨false, .err, .err, .ok ()⟩ (Or.inl rfl)).2 (by decide)).1

/-- C4 counterexample: the claim asserts that with the force flag true the
transcoding invocation is always performed, but for an audio-class task
whose destination exists and whose stream probe reports no audio, only the
probe runs: the executed command list contains no transcoding invocation
and nothing is converted. -/
theorem force_transcode_counterexample :
    ((convert_file ⟨"/d/", "x", ".mp3"⟩ ⟨"/d/", "x", ".webm"⟩ .audio true "128k"
        ⟨true, .err, .err, .ok ()⟩).cmds.filter isTranscodeInvocation = [])
    ∧ (convert_file ⟨"/d/", "x", ".mp3"⟩ ⟨"/d/", "x", ".webm"⟩ .audio true "128k"
        ⟨true, .err, .err, .ok ()⟩).outcome ≠ Outcome.converted := by
  decide

/-- C4 amended: a task whose destination exists and whose force flag is
false performs no external invocation of any kind, prints the skip notice
and is reported skipped-exists; with the force flag true the existence
skip is bypassed, and the transcoding invocation (an `ffmpeg` command with
`-y` and the destination) is performed for image and video tasks and for
audio tasks whose probe reports audio — but not for an audio task whose
probe reports no audio, where only the probe runs. -/
theorem skip_and_force_spec (input output : FsPath) (ft : FileType) (db : String)
    (env : Env) (hex : env.outputExists = true) :
    convert_file input output ft false db env =
      ⟨.skippedExists, [], ["Пропуск (уже существует): " ++ output.toString]⟩
    ∧ (convert_file input output ft true db env).outcome ≠ Outcome.skippedExists
    ∧ (ft = .audio → has_audio_stream env.audioProbe = false →
        (convert_file input output ft true db env).cmds.filter isTranscodeInvocation = [])
    ∧ ((ft = .image ∨ ft = .video ∨ (ft = .audio ∧ has_audio_stream env.audioProbe = true)) →
        ∃ c ∈ (convert_file input output ft true db env).cmds,
          isTranscodeInvocation c = true ∧ "-y" ∈ c ∧ output.toString ∈ c) := by
  refine ⟨by simp [convert_file, hex], ?_, ?_, ?_⟩
  · cases ft with
    | image => cases hres : env.ffmpegResult <;> simp [convert_file, runTranscode, hres]
    | video =>
        cases ha : has_audio_stream env.audioProbe <;>
          cases hbr : get_audio_bitrate env.bitrateProbe <;>
          cases hres : env.ffmpegResult <;>
          simp [convert_file, runTranscode, ha, hbr, hres]
    | audio =>
        cases ha : has_audio_stream env.audioProbe <;>
          cases hbr : get_audio_bitrate env.bitrateProbe <;>
          cases hres : env.ffmpegResult <;>
          simp [convert_file, runTranscode, ha, hbr, hres]
  · intro hft ha
    subst hft
    simp [convert_file, ha, isTranscodeInvocation, hasAudioCmd]
  · intro hcase
    rcases hcase with rfl | rfl | ⟨rfl, ha⟩
    · refine ⟨imageCmd input output, ?_, ?_, ?_, ?_⟩
      · cases hres : env.ffmpegResult <;> simp [convert_file, runTranscode, hres]
      · simp [isTranscodeInvocation, imageCmd]
      · simp [imageCmd]
      · simp [imageCmd]
    · cases ha : has_audio_stream env.audioProbe
      · refine ⟨videoCmdNoAudio input output, ?_, ?_, ?_, ?_⟩
        · cases hres : env.ffmpegResult <;> simp [convert_file, runTranscode, ha, hres]
        · simp [isTranscodeInvocation, videoCmdNoAudio]
        · simp [videoCmdNoAudio]
        · simp [videoCmdNoAudio]
      · cases hbr : get_audio_bitrate env.bitrateProbe with
        | none =>
            refine ⟨videoCmdWithAudio input output db, ?_, ?_, ?_, ?_⟩
            · cases hres : env.ffmpegResult <;>
                simp [convert_file, runTranscode, ha, hbr, hres]
            · simp [isTranscodeInvocation, videoCmdWithAudio]
            · simp [videoCmdWithAudio]
            · simp [videoCmdWithAudio]
        | some b =>
            refine ⟨videoCmdWithAudio input output b, ?_, ?_, ?_, ?_⟩
            · cases hres : env.ffmpegResult <;>
                simp [convert_file, runTranscode, ha, hbr, hres]
            · simp [isTranscodeInvocation, videoCmdWithAudio]
            · simp [videoCmdWithAudio]
            · simp [videoCmdWithAudio]
    · cases hbr : get_audio_bitrate env.bitrateProbe with
      | none =>
          refine ⟨audioCmd input output db, ?_, ?_, ?_, ?_⟩
          · cases hres : env.ffmpegResult <;>
              simp [convert_file, runTranscode, ha, hbr, hres]
          · simp [isTranscodeInvocation, audioCmd]
          · simp [audioCmd]
          · simp [audioCmd]
      | some b =>
          refine ⟨audioCmd input output b, ?_, ?_, ?_, ?_⟩
          · cases hres : env.ffmpegResult <;>
              simp [convert_file, runTranscode, ha, hbr, hres]
          · simp [isTranscodeInvocation, audioCmd]
          · simp [audioCmd]
          · simp [audioCmd]

/-- C4 witness: an image task with existing destination is skipped with no
invocation when force is false, and with force true an `ffmpeg`
invocation writing the destination is performed. -/
theorem skip_and_force_spec_witness :
    convert_file ⟨"/d/", "x", ".jpg"⟩ ⟨"/d/", "x", ".webp"⟩ .image false "128k"
        ⟨true, .err, .err, .ok ()⟩ =
      ⟨.skippedExists, [], ["Пропуск (уже существует): /d/x.webp"]⟩
    ∧ ∃ c ∈ (convert_file ⟨"/d/", "x", ".jpg"⟩ ⟨"/d/", "x", ".webp"⟩ .image true "128k"
        ⟨true, .err, .err, .ok ()⟩).cmds,
        isTranscodeInvocation c = true ∧ "-y" ∈ c
          ∧ FsPath.toString ⟨"/d/", "x", ".webp"⟩ ∈ c := by
  obtain ⟨h1, -, -, h4⟩ := skip_and_force_spec ⟨"/d/", "x", ".jpg"⟩ ⟨"/d/", "x", ".webp"⟩
    .image "128k" ⟨true, .err, .err, .ok ()⟩ rfl
  exact ⟨h1.trans (by decide), h4 (Or.inl rfl)⟩

/-- C5: for an audio task that is not skipped, when the prober reports no
audio stream the dispatcher prints a warning, performs no transcoding
invocation, and returns the skipped outcome (a total function: nothing is
raised); when it reports audio, the single transcoding invocation
re-encodes audio only with the probed bitrate when available and the
run's default when the probe returns none. -/
theorem audio_dispatch_spec (input output : FsPath) (force : Bool) (db : String)
    (env : Env) (hns : env.outputExists = false ∨ force = true) :
    (has_audio_stream env.audioProbe = false →
       convert_file input output .audio force db env =
         ⟨.skippedNoAudio, [hasAudioCmd input],
          ["Предупреждение: в файле " ++ input.toString ++ " нет аудиопотока, пропускаем."]⟩
       ∧ (convert_file input output .audio force db env).cmds.filter
           isTranscodeInvocation = [])
    ∧ (has_audio_stream env.audioProbe = true →
       (convert_file input output .audio force db env).cmds =
         [hasAudioCmd input, bitrateCmd input,
          audioCmd input output ((get_audio_bitrate env.bitrateProbe).getD db)]) := by
  have hskip := not_skip_of env.outputExists force hns
  constructor
  · intro ha
    have heq : convert_file input output .audio force db env =
        ⟨.skippedNoAudio, [hasAudioCmd input],
         ["Предупреждение: в файле " ++ input.toString ++ " нет аудиопотока, пропускаем."]⟩ := by
      simp [convert_file, hskip, ha]
    refine ⟨heq, ?_⟩
    rw [heq]
    simp [isTranscodeInvocation, hasAudioCmd]
  · intro ha
    cases hbr : get_audio_bitrate env.bitrateProbe with
    | none => simp [convert_file, hskip, ha, hbr, runTranscode_cmds]
    | some b => simp [convert_file, hskip, ha, hbr, runTranscode_cmds]

/-- C5 witness: an audio file whose probe reports no stream is skipped
with a warning and no transcoding invocation; one whose stream probe
succeeds but whose bitrate probe fails is re-encoded at the default
bitrate. -/
theorem audio_dispatch_spec_witness :
    convert_file ⟨"/a/", "s", ".mp3"⟩ ⟨"/a/", "s", ".webm"⟩ .audio false "128k"
        ⟨false, .err, .err, .ok ()⟩ =
      ⟨.skippedNoAudio, [hasAudioCmd ⟨"/a/", "s", ".mp3"⟩],
       ["Предупреждение: в файле /a/s.mp3 нет аудиопотока, пропускаем."]⟩
    ∧ (convert_file ⟨"/a/", "t", ".mp3"⟩ ⟨"/a/", "t", ".webm"⟩ .audio false "128k"
        ⟨false, .ok "1", .err, .ok ()⟩).cmds =
      [hasAudioCmd ⟨"/a/", "t", ".mp3"⟩, bitrateCmd ⟨"/a/", "t", ".mp3"⟩,
       audioCmd ⟨"/a/", "t", ".mp3"⟩ ⟨"/a/", "t", ".webm"⟩ "128k"] := by
  constructor
  · exact (((audio_dispatch_spec ⟨"/a/", "s", ".mp3"⟩ ⟨"/a/", "s", ".webm"⟩ false "128k"
      ⟨false, .err, .err, .ok ()⟩ (Or.inl rfl)).1 (by decide)).1).trans (by decide)
  · exact ((audio_dispatch_spec ⟨"/a/", "t", ".mp3"⟩ ⟨"/a/", "t", ".webm"⟩ false "128k"
      ⟨false, .ok "1", .err, .ok ()⟩ (Or.inl rfl)).2 (by decide)).trans (by decide)

/-- C10: a file with suffix `.webm` (any letter case) matches none of the
three extension sets, so it is ignored: `planFile` yields no task, and the
walk-loop body does nothing with it, whatever the force flag and the
per-file environment. -/
theorem webm_ignored_spec (p : FsPath) (cfg : RunConfig) (fenv : Env)
    (hext : pyLower p.suffix = ".webm") :
    planFile p = none ∧ processOne cfg (p, fenv) = none := by
  have h1 : IMAGE_EXTS.contains ".webm" = false := by decide
  have h2 : VIDEO_EXTS.contains ".webm" = false := by decide
  have h3 : AUDIO_EXTS.contains ".webm" = false := by decide
  have hplan : planFile p = none := by
    unfold planFile
    rw [hext, h1, h2, h3]
    simp
  exact ⟨hplan, by simp [processOne, hplan]⟩

/-- C2: classification is by case-insensitive extension lookup in the
three sets, with `.webp` as the image output extension and `.webm` for
video and audio; unknown extensions produce no task; and the output path
always keeps the input's directory and stem, changing only the suffix. -/
theorem classification_spec (p : FsPath) :
    (IMAGE_EXTS.contains (pyLower p.suffix) = true →
       planFile p = some (p.withSuffix ".webp", FileType.image))
    ∧ (VIDEO_EXTS.contains (pyLower p.suffix) = true →
       planFile p = some (p.withSuffix ".webm", FileType.video))
    ∧ (AUDIO_EXTS.contains (pyLower p.suffix) = true →
       planFile p = some (p.withSuffix ".webm", FileType.audio))
    ∧ (IMAGE_EXTS.contains (pyLower p.suffix) = false →
       VIDEO_EXTS.contains (pyLower p.suffix) = false →
       AUDIO_EXTS.contains (pyLower p.suffix) = false →
       planFile p = none)
    ∧ (∀ q ft, planFile p = some (q, ft) → q.dir = p.dir ∧ q.stem = p.stem) := by
  have notMem : ∀ (l : List String) (e : String),
      l.contains e = false → e ∉ l := by
    intro l e hc hm
    rw [show l.contains e = l.elem e from rfl, List.elem_eq_true_of_mem hm] at hc
    exact Bool.true_eq_false.mp hc
  refine ⟨fun h => ?_, fun h => ?_, fun h => ?_, fun h1 h2 h3 => ?_, fun q ft h => ?_⟩
  · simp [planFile, List.mem_of_elem_eq_true h]
  · have hi : IMAGE_EXTS.contains (pyLower p.suffix) = false :=
      ext_sets_disjoint (pyLower p.suffix) |>.1 h
    simp [planFile, notMem _ _ hi, List.mem_of_elem_eq_true h]
  · obtain ⟨-, hi, hv⟩ := ext_sets_disjoint (pyLower p.suffix)
    simp [planFile, notMem _ _ (hi h), notMem _ _ (hv h), List.mem_of_elem_eq_true h]
  · simp [planFile, notMem _ _ h1, notMem _ _ h2, notMem _ _ h3]
  · unfold planFile at h
    split at h <;> [skip; split at h <;> [skip; split at h <;> [skip; exact absurd h (by simp)]]] <;>
    · simp only [FsPath.withSuffix, Option.some.injEq, Prod.mk.injEq] at h
      obtain ⟨h', -⟩ := h
      subst h'
      exact ⟨rfl, rfl⟩

/-- C2 witness: `/d/photo.JPG` maps to image with output `/d/photo.webp`,
`/d/clip.MOV` to video with output `/d/clip.webm`, `/d/song.flac` to audio
with output `/d/song.webm`, and `/d/notes.txt` to no task. -/
theorem classification_spec_witness :
    planFile ⟨"/d/", "photo", ".JPG"⟩ = some (⟨"/d/", "photo", ".webp"⟩, FileType.image)
    ∧ planFile ⟨"/d/", "clip", ".MOV"⟩ = some (⟨"/d/", "clip", ".webm"⟩, FileType.video)
    ∧ planFile ⟨"/d/", "song", ".flac"⟩ = some (⟨"/d/", "song", ".webm"⟩, FileType.audio)
    ∧ planFile ⟨"/d/", "notes", ".txt"⟩ = none := by
  refine ⟨?_, ?_, ?_, ?_⟩
  · exact (classification_spec ⟨"/d/", "photo", ".JPG"⟩).1 (by decide)
  · exact (classification_spec ⟨"/d/", "clip", ".MOV"⟩).2.1 (by decide)
  · exact (classification_spec ⟨"/d/", "song", ".flac"⟩).2.2.1 (by decide)
  · exact (classification_spec ⟨"/d/", "notes", ".txt"⟩).2.2.2.1
      (by decide) (by decide) (by decide)

/-- C9 counterexample: the claim asserts the output-path mapping is the
identity for a `.webp` input of any letter case, but for `a.WEBP` the
computed destination is `a.webp`, a different path. -/
theorem webp_identity_counterexample :
    planFile ⟨"/d/", "a", ".WEBP"⟩ = some (⟨"/d/", "a", ".webp"⟩, FileType.image)
    ∧ (⟨"/d/", "a", ".webp"⟩ : FsPath) ≠ ⟨"/d/", "a", ".WEBP"⟩ := by
  constructor
  · decide
  · intro h
    exact absurd (congrArg FsPath.suffix h) (by decide)

/-- C9 amended: for an input whose suffix is exactly the lowercase
`.webp`, the output-path mapping is the identity, so with the force flag
false it is reported skipped-exists whenever the destination (the source
itself) exists, and with the force flag true the transcoder is invoked
with identical input and output paths; for other letter cases of `.webp`
the destination is the sibling path with lowercased extension instead. -/
theorem webp_identity_spec (p : FsPath) (db : String) (env : Env)
    (hp : p.suffix = ".webp") :
    planFile p = some (p, FileType.image)
    ∧ (env.outputExists = true →
        convert_file p p .image false db env =
          ⟨.skippedExists, [], ["Пропуск (уже существует): " ++ p.toString]⟩)
    ∧ (convert_file p p .image true db env).cmds = [imageCmd p p] := by
  refine ⟨?_, fun hex => ?_, ?_⟩
  · have hlow : pyLower p.suffix = ".webp" := by rw [hp]; decide
    have hself : p.withSuffix ".webp" = p := by
      obtain ⟨d, s, e⟩ := p
      simp only [FsPath.withSuffix]
      simp_all
    unfold planFile
    rw [hlow, show IMAGE_EXTS.contains ".webp" = true from by decide]
    simp [hself]
  · simp [convert_file, hex]
  · simp only [convert_file, Bool.not_true, Bool.and_false, Bool.false_eq_true,
      if_false, runTranscode_cmds, List.nil_append]

/-- C9 witness: `pic.webp` plans to itself; with the destination present
and no force it is skipped with a notice and no invocation; with force the
single invocation reads and writes `pic.webp`. -/
theorem webp_identity_spec_witness :
    planFile ⟨"/d/", "pic", ".webp"⟩ = some (⟨"/d/", "pic", ".webp"⟩, FileType.image)
    ∧ convert_file ⟨"/d/", "pic", ".webp"⟩ ⟨"/d/", "pic", ".webp"⟩ .image false "128k"
        ⟨true, .err, .err, .ok ()⟩ =
        ⟨.skippedExists, [], ["Пропуск (уже существует): /d/pic.webp"]⟩
    ∧ (convert_file ⟨"/d/", "pic", ".webp"⟩ ⟨"/d/", "pic", ".webp"⟩ .image true "128k"
        ⟨true, .err, .err, .ok ()⟩).cmds =
        [imageCmd ⟨"/d/", "pic", ".webp"⟩ ⟨"/d/", "pic", ".webp"⟩] := by
  obtain ⟨h1, h2, h3⟩ := webp_identity_spec ⟨"/d/", "pic", ".webp"⟩ "128k"
    ⟨true, .err, .err, .ok ()⟩ (by decide)
  exact ⟨h1, (h2 rfl).trans (by decide), h3⟩

/-- C7: when the dependency check passes and the root is a directory, the
process exit code is 0 whatever the per-file transcoder results, the walk
processes every file independently (each file's result is a function of
that file alone, so one failure never stops the rest), and any file whose
transcoder exited non-zero is marked failed with its captured error text
printed. -/
theorem failure_isolation_spec (cfg : RunConfig) (renv : RunEnv)
    (hff : renv.ffmpegOk = true) (hfp : renv.ffprobeOk = true)
    (hdir : renv.rootIsDir = true) :
    (mainRun cfg renv).1 = 0
    ∧ (mainRun cfg renv).2.2 = renv.files.map (processOne cfg)
    ∧ (∀ (input output : FsPath) (ft : FileType) (fenv : Env) (e : String),
        fenv.ffmpegResult = Except.error e →
        (convert_file input output ft cfg.force cfg.default_bitrate fenv).outcome
          = Outcome.failed →
        errMsg input e ∈ (convert_file input output ft cfg.force cfg.default_bitrate
          fenv).msgs) := by
  have hmain : mainRun cfg renv = (0, [], renv.files.map (processOne cfg)) := by
    simp [mainRun, check_ffmpeg, hff, hfp, hdir]
  refine ⟨by rw [hmain], by rw [hmain], ?_⟩
  intro input output ft fenv e hres hout
  by_cases hskip : (fenv.outputExists && !cfg.force) = true
  · simp [convert_file, hskip] at hout
  · rw [Bool.not_eq_true] at hskip
    cases ft with
    | image => simp [convert_file, hskip, hres, runTranscode]
    | video =>
        cases ha : has_audio_stream fenv.audioProbe <;>
          cases hbr : get_audio_bitrate fenv.bitrateProbe <;>
          simp [convert_file, hskip, ha, hbr, hres, runTranscode]
    | audio =>
        cases ha : has_audio_stream fenv.audioProbe <;>
          cases hbr : get_audio_bitrate fenv.bitrateProbe
        · simp [convert_file, hskip, ha, hbr] at hout
        · simp [convert_file, hskip, ha, hbr] at hout
        · simp [convert_file, hskip, ha, hbr, hres, runTranscode]
        · simp [convert_file, hskip, ha, hbr, hres, runTranscode]

/-- C7 witness: a two-file run whose first transcode fails and whose
second succeeds exits 0, marks only the first failed, and still converts
the second. -/
theorem failure_isolation_spec_witness :
    (mainRun ⟨false, "128k"⟩
        ⟨true, true, "/r", true,
         [(⟨"/r/", "a", ".jpg"⟩, ⟨false, .err, .err, .error "boom"⟩),
          (⟨"/r/", "b", ".jpg"⟩, ⟨false, .err, .err, .ok ()⟩)]⟩).1 = 0
    ∧ ((mainRun ⟨false, "128k"⟩
        ⟨true, true, "/r", true,
         [(⟨"/r/", "a", ".jpg"⟩, ⟨false, .err, .err, .error "boom"⟩),
          (⟨"/r/", "b", ".jpg"⟩, ⟨false, .err, .err, .ok ()⟩)]⟩).2.2.map
        (Option.map ConvResult.outcome)) =
      [some Outcome.failed, some Outcome.converted] := by
  obtain ⟨h1, h2, -⟩ := failure_isolation_spec ⟨false, "128k"⟩
    ⟨true, true, "/r", true,
     [(⟨"/r/", "a", ".jpg"⟩, ⟨false, .err, .err, .error "boom"⟩),
      (⟨"/r/", "b", ".jpg"⟩, ⟨false, .err, .err, .ok ()⟩)]⟩ rfl rfl rfl
  refine ⟨h1, ?_⟩
  rw [h2]
  decide

/-- C8: when either tool's version query fails, the run prints the
diagnostic and stops with exit code 1, with an empty result list: no
filesystem traversal and no conversion happens. The check is consulted
once, before the directory check and the walk. -/
theorem dependency_gate_spec (cfg : RunConfig) (renv : RunEnv)
    (h : renv.ffmpegOk = false ∨ renv.ffprobeOk = false) :
    mainRun cfg renv =
      (1, ["Ошибка: FFmpeg (или ffprobe) не найден. Установите FFmpeg и добавьте его в PATH."],
       []) := by
  rcases h with h | h <;> simp [mainRun, check_ffmpeg, h]

/-- C8 witness: with the transcoding engine missing, a run over a
directory holding a convertible file exits 1 without processing it. -/
theorem dependency_gate_spec_witness :
    mainRun ⟨false, "128k"⟩
        ⟨false, true, "/r", true, [(⟨"/r/", "a", ".jpg"⟩, ⟨false, .err, .err, .ok ()⟩)]⟩ =
      (1, ["Ошибка: FFmpeg (или ffprobe) не найден. Установите FFmpeg и добавьте его в PATH."],
       []) :=
  dependency_gate_spec ⟨false, "128k"⟩
    ⟨false, true, "/r", true, [(⟨"/r/", "a", ".jpg"⟩, ⟨false, .err, .err, .ok ()⟩)]⟩
    (Or.inl rfl)

/-- C10 witness: `video.WEBM` with force set is ignored. -/
theorem webm_ignored_spec_witness :
    planFile ⟨"/out/", "video", ".WEBM"⟩ = none
    ∧ processOne ⟨true, "128k"⟩
        (⟨"/out/", "video", ".WEBM"⟩, ⟨true, .err, .err, .ok ()⟩) = none :=
  webm_ignored_spec ⟨"/out/", "video", ".WEBM"⟩ ⟨true, "128k"⟩
    ⟨true, .err, .err, .ok ()⟩ (by decide)

end All2Webp
